import Mathlib

/-!
Verification of the Device Communication & Discovery Gateway of the
samsung-frame-art-gallery repository, as a shallow embedding in Lean 4.

The embedded code lives in the repository's implementation-plan documents:
* `_tasks/15-re-framing-plan.md` Task 4 holds the final, complete
  `src/services/tv_client.py` (TVClient: `configure`, `get_status`,
  `get_api_version`, `_is_new_api`, `get_thumbnail`), Task 3 holds
  `src/services/tv_discovery.py` (`discover_tvs`), Task 5 the
  `POST /api/tv/settings` endpoint (`set_tv_settings`), and Task 2 the
  settings store.
* The thumbnails plan (`src/unnamed/part_011`) holds the incremental
  `get_thumbnail` snippets (method selection, cache integration Task 5,
  retry loop Task 6) and `TVThumbnailCache`.
* The re-framing plan (`src/unnamed/part_009`) holds `_reframe_image`
  (image_processor.py) and the local-image thumbnail endpoint with its
  size clamp and cache key (thumbnails.py / images.py).

Machine-level conventions: Python byte strings are `List Nat`; Python
`Optional[T]` is `Option T`; a raised exception is `Except.error`;
real-valued arithmetic (`w / h`, `h * 16 / 9`) is modelled exactly over
`ℚ`, with Python `int()` truncation equal to `Int.floor` on the
non-negative values that arise here.
-/

namespace FrameArt

/-! ## Protocol-version parsing and thumbnail-shape selection

From `TVClient._is_new_api` (part_011 lines 32-38, unchanged in the final
tv_client.py): `major = int(version.split('.')[0]); return major >= 4`.
`major_of` returns `none` where Python `int()` would raise. -/

/-- Numeric value of a decimal digit character. -/
def digitVal (c : Char) : Nat := c.toNat - '0'.toNat

/-- Python `int()` on a non-empty all-digit character sequence; `none`
where `int()` raises `ValueError`. -/
def parseNatChars : List Char → Option Nat
  | [] => none
  | cs => if cs.all (fun c => c.isDigit) then
            some (cs.foldl (fun n c => n * 10 + digitVal c) 0)
          else none

/-- Python `int()` including an optional sign. -/
def parseIntChars : List Char → Option Int
  | '-' :: cs => (parseNatChars cs).map (fun n => -(n : Int))
  | '+' :: cs => (parseNatChars cs).map (fun n => (n : Int))
  | cs => (parseNatChars cs).map (fun n => (n : Int))

/-- The integer major component of a dotted version string:
`int(version.split('.')[0])`, i.e. `int()` of the characters before the
first dot; `none` where `int()` raises. -/
def major_of (version : String) : Option Int :=
  parseIntChars (version.toList.takeWhile (fun c => c ≠ '.'))

/-- `TVClient._is_new_api`: `major >= 4`, undefined when `int()` raises. -/
def is_new_api (version : String) : Option Bool :=
  (major_of version).map (fun major => decide (4 ≤ major))

/-- The two mutually exclusive request shapes of `TVClient.get_thumbnail`
(part_011 lines 44-59): `get_thumbnail_list` (current batch shape, new API)
versus `get_thumbnail` (legacy single-item shape, old API). -/
inductive ThumbShape where
  | batchList  : ThumbShape
  | singleItem : ThumbShape
deriving DecidableEq, Repr

/-- The branch taken by `TVClient.get_thumbnail`:
`if self._is_new_api(): ...get_thumbnail_list... else: ...get_thumbnail...`. -/
def thumbnail_shape (version : String) : Option ThumbShape :=
  (is_new_api version).map (fun b => if b then .batchList else .singleItem)

/-! ## On-disk thumbnail cache (`TVThumbnailCache`, part_011 lines 93-112)

The cache directory is a fixed path shared by every `TVThumbnailCache`
object, so it is modelled as one association list from content id to
bytes. -/

/-- `TVThumbnailCache.get`: the bytes stored under a content id, if any. -/
def cacheGet (cache : List (String × List Nat)) (content_id : String) :
    Option (List Nat) :=
  (cache.find? (fun p => p.1 = content_id)).map (·.2)

/-- `TVThumbnailCache.set`: store bytes under a content id (overwrites). -/
def cacheSet (cache : List (String × List Nat)) (content_id : String)
    (data : List Nat) : List (String × List Nat) :=
  (content_id, data) :: cache

/-- Python truthiness of an `Optional[bytes]` value: `if cached:` is taken
exactly when the value is present and non-empty. -/
def pyTruthy : Option (List Nat) → Bool
  | some (_ :: _) => true
  | _ => false

/-- `TVClient.get_thumbnail` with cache integration (part_011 Task 5,
lines 126-140): return a truthy cache hit directly; otherwise fetch from
the TV (`fetched` is the outcome of `_fetch_thumbnail_from_tv`), write
truthy data through to the cache, and return it. The third component
counts underlying TV fetches issued by the call. -/
def get_thumbnail_cached (cache : List (String × List Nat))
    (fetched : Option (List Nat)) (content_id : String) :
    Option (List Nat) × List (String × List Nat) × Nat :=
  let cached := cacheGet cache content_id
  if pyTruthy cached then
    (cached, cache, 0)
  else
    let data := fetched
    let cache' := if pyTruthy data then cacheSet cache content_id (data.getD [])
                  else cache
    (data, cache', 1)

/-! ## Local-image thumbnail endpoint (part_009 lines 483-487, 545-560)

`get_thumbnail` in images.py clamps the requested size with
`size = min(max(size, 50), 1200)` and `get_cache_path` derives the cache
key from `f"{image_path}|size={size}"` (the md5 pre-image; md5 is not
re-modelled, the pre-image string already determines the cache file). -/

/-- The size clamp of the thumbnail endpoint: `min(max(size, 50), 1200)`. -/
def clamp_size (size : Int) : Int :=
  min (max size 50) 1200

/-- `get_cache_path`'s hash pre-image: `f"{image_path}|size={size}"`. -/
def thumb_cache_key (image_path : String) (size : Int) : String :=
  image_path ++ "|size=" ++ toString size

/-- `generate_thumbnail`: serve the cached bytes for the key when present,
otherwise generate them (`gen` stands for the Pillow rendering). -/
def generate_thumbnail (cache : String → Option (List Nat))
    (gen : String → Int → List Nat) (image_path : String) (size : Int) :
    List Nat :=
  match cache (thumb_cache_key image_path size) with
  | some data => data
  | none => gen image_path size

/-- The `GET /{path}/thumbnail` endpoint: clamp the size, then generate. -/
def get_thumbnail_endpoint (cache : String → Option (List Nat))
    (gen : String → Int → List Nat) (image_path : String) (size : Int) :
    List Nat :=
  let size := clamp_size size
  generate_thumbnail cache gen image_path size

/-! ## Retry loop of `get_thumbnail` (part_011 Task 6, lines 149-158)

```
for attempt in range(retries + 1):
    try:
        return self._fetch_thumbnail_from_tv(content_id)
    except Exception as e:
        if attempt < retries:
            time.sleep(0.5)
            self._tv = None  # Reset connection
        else:
            raise
```

`fetch` gives the outcome of `_fetch_thumbnail_from_tv` at each attempt
index. The first result component records, per attempt actually
performed, the connection-handle value (`self._tv`) the attempt starts
from; its length is the number of underlying fetch attempts. -/

/-- The retry loop body, recursing on the number of retries still
allowed; `attempt` is the current loop index and `tv` the handle state. -/
def fetchRetryAux (fetch : Nat → Except String (List Nat)) :
    Nat → Nat → Option Unit → List (Option Unit) × Except String (List Nat)
  | 0, attempt, tv => ([tv], fetch attempt)
  | r + 1, attempt, tv =>
    match fetch attempt with
    | .ok data => ([tv], .ok data)
    | .error _ =>
      let rest := fetchRetryAux fetch r (attempt + 1) none
      (tv :: rest.1, rest.2)

/-- `TVClient.get_thumbnail(content_id, retries)`: run the retry loop from
attempt 0 with the given initial handle state. -/
def get_thumbnail_retry (fetch : Nat → Except String (List Nat))
    (retries : Nat) (tv : Option Unit) :
    List (Option Unit) × Except String (List Nat) :=
  fetchRetryAux fetch retries 0 tv

/-! ## TVClient connection state and `get_status`

From the final `tv_client.py` (_tasks/15-re-framing-plan.md Task 4).
A `TVClient` instance owns a lazily created handle `_tv` and a memoized
`_api_version`. -/

/-- The mutable per-instance state of a `TVClient`. -/
structure TVClientSt where
  ip : String
  tv : Option Unit
  apiVersion : Option String
deriving DecidableEq, Repr

/-- The dict returned by `TVClient.get_status`. -/
structure StatusRec where
  connected : Bool
  art_mode_supported : Option Bool
  api_version : Option String
  uses_ssl_thumbnails : Option Bool
  error : Option String
deriving DecidableEq, Repr

/-- `_is_new_api` as called on the success path of `get_status`: the
final version wraps the parse in `try/except` and assumes the new API
(`True`) when the version cannot be parsed. -/
def uses_ssl_of (version : String) : Bool :=
  match major_of version with
  | some major => decide (4 ≤ major)
  | none => true

/-- `TVClient.get_status`: probe `art().supported()` (outcome `supR`) and
fetch the api version if not yet memoized (outcome `verR`, consulted only
on that path). Any failure is caught: the handle and the memoized version
are both set to `None` and a disconnected record carrying the error text
is returned; nothing is raised (the function is total). -/
def get_status (c : TVClientSt) (supR : Except String Bool)
    (verR : Except String String) : StatusRec × TVClientSt :=
  match supR with
  | .error e =>
    (⟨false, none, none, none, some e⟩, ⟨c.ip, none, none⟩)
  | .ok supported =>
    match c.apiVersion with
    | some v =>
      (⟨true, some supported, some v, some (uses_ssl_of v), none⟩,
       ⟨c.ip, some (), some v⟩)
    | none =>
      match verR with
      | .ok v =>
        (⟨true, some supported, some v, some (uses_ssl_of v), none⟩,
         ⟨c.ip, some (), some v⟩)
      | .error e =>
        (⟨false, none, none, none, some e⟩, ⟨c.ip, none, none⟩)

/-! ## Per-operation version/handle bookkeeping (final `tv_client.py`)

Operations on one `TVClient` instance, at the granularity that touches
the memoized version: a `get_status` probe, or one underlying thumbnail
fetch attempt of the `get_thumbnail` retry loop. A fetch attempt first
runs `_is_new_api`, which issues the underlying version query exactly
when `_api_version is None` (a failing query is swallowed there and
leaves the memo empty); a failing fetch resets `_tv` only when it is not
the last attempt (`attempt < retries`). The natural number accompanying
each step counts underlying protocol-version queries issued. -/

inductive TVOp where
  | statusOp (supR : Except String Bool) (verR : Except String String)
  | thumbAttempt (verR : Except String String)
      (fetchR : Except String (List Nat)) (isLast : Bool)

/-- Version queries issued by one `get_status` call: one exactly when the
`supported()` probe succeeds and the version was not yet memoized. -/
def status_query_count (c : TVClientSt) (supR : Except String Bool) : Nat :=
  match supR with
  | .error _ => 0
  | .ok _ => if c.apiVersion = none then 1 else 0

/-- One underlying fetch attempt of `get_thumbnail`
(`_fetch_thumbnail_from_tv` preceded by `_is_new_api`). -/
def fetch_attempt (c : TVClientSt) (verR : Except String String)
    (fetchR : Except String (List Nat)) (isLast : Bool) :
    TVClientSt × Nat :=
  let queries := if c.apiVersion = none then 1 else 0
  let ver' := match c.apiVersion with
    | some v => some v
    | none => match verR with
      | .ok v => some v
      | .error _ => none
  match fetchR with
  | .ok _ => (⟨c.ip, some (), ver'⟩, queries)
  | .error _ => (⟨c.ip, if isLast then some () else none, ver'⟩, queries)

/-- One operation on a `TVClient` instance, with its version-query count. -/
def stepOp (c : TVClientSt) : TVOp → TVClientSt × Nat
  | .statusOp supR verR =>
    ((get_status c supR verR).2, status_query_count c supR)
  | .thumbAttempt verR fetchR isLast => fetch_attempt c verR fetchR isLast

/-- A sequence of operations on one instance, accumulating the number of
underlying protocol-version queries issued. -/
def runOps (c : TVClientSt) : List TVOp → TVClientSt × Nat
  | [] => (c, 0)
  | op :: ops =>
    let (c', q) := stepOp c op
    let (c'', qs) := runOps c' ops
    (c'', q + qs)

/-- Whether an `Except` outcome is a success. -/
def exceptOk : Except String α → Bool
  | .ok _ => true
  | .error _ => false

/-- An operation whose every underlying device interaction succeeds. -/
def opOk : TVOp → Bool
  | .statusOp supR verR => exceptOk supR && exceptOk verR
  | .thumbAttempt verR fetchR _ => exceptOk verR && exceptOk fetchR

/-- An operation that is a failing `get_status` probe (the only operation
that clears an already-memoized version). -/
def statusFail : TVOp → Bool
  | .statusOp (.error _) _ => true
  | _ => false

/-! ## Device registry: `TVClient.configure` and `POST /api/tv/settings`

From `_tasks/15-re-framing-plan.md` Tasks 2, 4 and 5. The process-wide
registry state is the class-level `_instance`/`_current_ip`, the settings
file, and the shared on-disk thumbnail-cache directory. -/

/-- The persisted `tv_settings.json` record (`TVSettings`). -/
structure TVSettingsRec where
  selected_tv_ip : Option String
  selected_tv_name : Option String
  manual_entry : Bool
deriving DecidableEq, Repr

/-- Process-wide state: current `TVClient` instance and ip, the persisted
settings record, and the shared thumbnail-cache contents. -/
structure SysState where
  inst : Option TVClientSt
  currentIp : Option String
  settings : TVSettingsRec
  cache : List (String × List Nat)
deriving DecidableEq, Repr

/-- `TVClient.configure(ip)`: when an instance exists and the ip changes,
drop its handle and clear the shared thumbnail cache
(`TVThumbnailCache.clear` is referenced here but not defined anywhere in
the repository; modelled from the spec: bulk clear deletes every cache
entry). Then unconditionally install a fresh instance for `ip`. Returns
the new instance alongside the updated state. -/
def configure (s : SysState) (ip : String) : SysState × TVClientSt :=
  let s1 :=
    if s.inst.isSome ∧ s.currentIp ≠ some ip then
      { s with inst := s.inst.map (fun c => { c with tv := none }),
               cache := [] }
    else s
  let fresh : TVClientSt := ⟨ip, none, none⟩
  ({ s1 with inst := some fresh, currentIp := some ip }, fresh)

/-- `POST /api/tv/settings` (`set_tv_settings`): call
`TVClient.configure(request.ip)` first, then probe the fresh client with
`get_status`; if the probe reports disconnected, raise a 400
(`some errortext` in the first component) without persisting; otherwise
persist the new settings record. The probe outcomes stand for the device
interaction of the status call. -/
def set_tv_settings (s : SysState) (supR : Except String Bool)
    (verR : Except String String) (ip name : String) (manual : Bool) :
    Option String × SysState :=
  let (s1, client) := configure s ip
  let (status, client') := get_status client supR verR
  let s2 := { s1 with inst := some client' }
  if status.connected then
    (none, { s2 with settings := ⟨some ip, some name, manual⟩ })
  else
    (some ("Could not connect to TV at " ++ ip), s2)

/-! ## SSDP discovery (`discover_tvs`, _tasks/15-re-framing-plan.md Task 3)

The receive loop collects datagrams until the socket read times out
(`except socket.timeout: break`, the normal terminator). Each datagram is
processed through `_parse_ssdp_response` (LOCATION header),
`_extract_ip_from_url`, and `_fetch_device_info` (descriptor fetch,
vendor filter); those involve regex/HTTP/XML, so their per-response
results are carried as data on the response event. `socket.socket(...)`
failing is the one exception raised out of the function (the handler's
`finally: sock.close()` hits an unbound local); every exception after
setup is caught and the devices collected so far are returned. -/

/-- One received SSDP datagram, carrying the results of the three
per-response processing steps. -/
structure RespEv where
  location : Option String
  ipAddr : Option String
  info : Option (String × Option String)
deriving DecidableEq, Repr

/-- A discovered TV (`DiscoveredTV`): ip, friendly name, model. -/
structure DiscoveredTV where
  ip : String
  name : String
  model : Option String
deriving DecidableEq, Repr

/-- The body of the receive loop: skip a response lacking a LOCATION
header or an ip, skip an ip already discovered (first-seen wins), skip a
failed or non-vendor descriptor fetch, otherwise record the device. -/
def scanStep (acc : List DiscoveredTV) (r : RespEv) : List DiscoveredTV :=
  match r.location with
  | none => acc
  | some _ =>
    match r.ipAddr with
    | none => acc
    | some ip =>
      if (acc.find? (fun tv => tv.ip = ip)).isSome then acc
      else
        match r.info with
        | none => acc
        | some (name, model) => acc ++ [⟨ip, name, model⟩]

/-- `discover_tvs`: socket setup (`setup`) failing is fatal; otherwise
fold the receive loop over the datagrams received before the read
timeout and return the collected devices. -/
def discover_tvs (setup : Except String Unit) (resps : List RespEv) :
    Except String (List DiscoveredTV) :=
  match setup with
  | .error e => .error e
  | .ok _ => .ok (resps.foldl scanStep [])

/-! ## Re-framing geometry (`_reframe_image`, part_009 lines 23-53)

`TARGET_RATIO = 16 / 9`. Real arithmetic is modelled exactly over `ℚ`;
Python `int()` truncation equals `Int.floor` on the non-negative values
arising here. -/

/-- The Samsung Frame aspect ratio, `TARGET_RATIO = 16 / 9`. -/
def TARGET_RATIO : ℚ := 16 / 9

/-- A PIL crop box `(left, top, right, bottom)`. -/
structure Box where
  left : ℤ
  top : ℤ
  right : ℤ
  bottom : ℤ
deriving DecidableEq, Repr

/-- `_reframe_image` crop-box computation: crop the sides when the image
is wider than 16:9 (keeping height), else crop top/bottom (keeping
width); the crop window is positioned by the offsets. The function
returns the box passed to `img.crop`; the result image size is
`(right - left, bottom - top)`. -/
def reframe_box (w h : ℕ) (offset_x offset_y : ℚ) : Box :=
  if (w : ℚ) / (h : ℚ) > TARGET_RATIO then
    let new_w : ℤ := ⌊(h : ℚ) * TARGET_RATIO⌋
    let max_offset : ℤ := (w : ℤ) - new_w
    let left : ℤ := ⌊(max_offset : ℚ) * offset_x⌋
    ⟨left, 0, left + new_w, (h : ℤ)⟩
  else
    let new_h : ℤ := ⌊(w : ℚ) / TARGET_RATIO⌋
    let max_offset : ℤ := (h : ℤ) - new_h
    let top : ℤ := ⌊(max_offset : ℚ) * offset_y⌋
    ⟨0, top, (w : ℤ), top + new_h⟩

/-! ## Helper lemmas -/

/-- Reading back a key just stored in the thumbnail cache. -/
theorem cacheGet_cacheSet_self (c : List (String × List Nat)) (k : String)
    (v : List Nat) : cacheGet (cacheSet c k v) k = some v := by
  simp [cacheGet, cacheSet, List.find?]

/-- A present, non-empty byte string is truthy. -/
theorem pyTruthy_cons (b : Nat) (bs : List Nat) :
    pyTruthy (some (b :: bs)) = true := rfl

/-- Python truthiness of an optional byte string, unfolded. -/
theorem pyTruthy_iff (o : Option (List Nat)) :
    pyTruthy o = true ↔ ∃ b bs, o = some (b :: bs) := by
  cases o with
  | none => simp [pyTruthy]
  | some l =>
    cases l with
    | nil => simp [pyTruthy]
    | cons b bs => simp [pyTruthy]

/-- The retry loop performs at most `r + 1` fetch attempts. -/
theorem fetchRetryAux_length_le (fetch : Nat → Except String (List Nat))
    (r : Nat) : ∀ (a : Nat) (tv : Option Unit),
    (fetchRetryAux fetch r a tv).1.length ≤ r + 1 := by
  induction r with
  | zero => intro a tv; simp [fetchRetryAux]
  | succ r ih =>
    intro a tv
    cases hf : fetch a with
    | ok d => simp [fetchRetryAux, hf]
    | error e =>
      simp only [fetchRetryAux, hf, List.length_cons]
      exact Nat.succ_le_succ (ih (a + 1) none)

/-- Starting from a discarded handle, every attempt of the retry loop
starts from a discarded handle. -/
theorem fetchRetryAux_all_none (fetch : Nat → Except String (List Nat))
    (r : Nat) : ∀ (a : Nat), ∀ x ∈ (fetchRetryAux fetch r a none).1, x = none := by
  induction r with
  | zero => intro a x hx; simpa [fetchRetryAux] using hx
  | succ r ih =>
    intro a x hx
    cases hf : fetch a with
    | ok d => simp [fetchRetryAux, hf] at hx; exact hx
    | error e =>
      simp only [fetchRetryAux, hf, List.mem_cons] at hx
      rcases hx with hx | hx
      · exact hx
      · exact ih (a + 1) x hx

/-- Every attempt after the first starts from a discarded handle. -/
theorem fetchRetryAux_drop_none (fetch : Nat → Except String (List Nat))
    (r a : Nat) (tv : Option Unit) :
    ∀ x ∈ (fetchRetryAux fetch r a tv).1.drop 1, x = none := by
  cases r with
  | zero => intro x hx; simp [fetchRetryAux] at hx
  | succ r =>
    intro x hx
    cases hf : fetch a with
    | ok d => simp [fetchRetryAux, hf] at hx
    | error e =>
      simp only [fetchRetryAux, hf, List.drop_succ_cons, List.drop_zero] at hx
      exact fetchRetryAux_all_none fetch r (a + 1) x hx

/-- When every attempt fails, the loop performs exactly `r + 1` attempts
and propagates the error of the last one. -/
theorem fetchRetryAux_all_fail (fetch : Nat → Except String (List Nat))
    (errs : Nat → String) (r : Nat) :
    ∀ (a : Nat) (tv : Option Unit),
    (∀ j, j ≤ r → fetch (a + j) = .error (errs (a + j))) →
    (fetchRetryAux fetch r a tv).2 = .error (errs (a + r))
    ∧ (fetchRetryAux fetch r a tv).1.length = r + 1 := by
  induction r with
  | zero =>
    intro a tv h
    have h0 : fetch a = .error (errs a) := by simpa using h 0 (Nat.le_refl 0)
    simp [fetchRetryAux, h0]
  | succ r ih =>
    intro a tv h
    have h0 : fetch a = .error (errs a) := by simpa using h 0 (Nat.zero_le _)
    have hrest := ih (a + 1) none (fun j hj => by
      have hj' := h (j + 1) (Nat.succ_le_succ hj)
      have harith : a + (j + 1) = a + 1 + j := by omega
      rwa [harith] at hj')
    have harith : a + (r + 1) = a + 1 + r := by omega
    refine ⟨?_, ?_⟩
    · simp only [fetchRetryAux, h0]
      rw [harith]
      exact hrest.1
    · simp only [fetchRetryAux, h0, List.length_cons]
      rw [hrest.2]

/-- One step of `runOps`, unfolded. -/
theorem runOps_cons (c : TVClientSt) (op : TVOp) (ops : List TVOp) :
    runOps c (op :: ops)
      = ((runOps (stepOp c op).1 ops).1,
         (stepOp c op).2 + (runOps (stepOp c op).1 ops).2) := rfl

/-- An operation whose device interactions all succeed is not a failing
status probe. -/
theorem opOk_not_statusFail (op : TVOp) (h : opOk op = true) :
    statusFail op = false := by
  cases op with
  | statusOp supR verR =>
    cases supR with
    | error e => simp [opOk, exceptOk] at h
    | ok sup => rfl
  | thumbAttempt verR fetchR isLast => rfl

/-- Once the version is memoized, any operation that is not a failing
status probe keeps it and issues no version query. -/
theorem stepOp_detected (c : TVClientSt) (v : String) (op : TVOp)
    (hv : c.apiVersion = some v) (hop : statusFail op = false) :
    (stepOp c op).1.apiVersion = some v ∧ (stepOp c op).2 = 0 := by
  cases op with
  | statusOp supR verR =>
    cases supR with
    | error e => simp [statusFail] at hop
    | ok sup => simp [stepOp, get_status, status_query_count, hv]
  | thumbAttempt verR fetchR isLast =>
    cases fetchR with
    | ok d => simp [stepOp, fetch_attempt, hv]
    | error e => simp [stepOp, fetch_attempt, hv]

/-- Once the version is memoized, a run without failing status probes
keeps it and issues no version query at all. -/
theorem runOps_detected (v : String) (ops : List TVOp) :
    ∀ c : TVClientSt, c.apiVersion = some v →
    (∀ op ∈ ops, statusFail op = false) →
    (runOps c ops).1.apiVersion = some v ∧ (runOps c ops).2 = 0 := by
  induction ops with
  | nil => intro c hv _; simpa [runOps]
  | cons op ops ih =>
    intro c hv hops
    have h1 := stepOp_detected c v op hv (hops op (by simp))
    have h2 := ih (stepOp c op).1 h1.1 (fun o ho => hops o (by simp [ho]))
    rw [runOps_cons]
    exact ⟨h2.1, by rw [h1.2, h2.2]⟩

/-- From an unmemoized version, a fully successful operation memoizes the
version with exactly one underlying version query. -/
theorem stepOp_ok_detects (c : TVClientSt) (op : TVOp)
    (hop : opOk op = true) (hnone : c.apiVersion = none) :
    (∃ v, (stepOp c op).1.apiVersion = some v) ∧ (stepOp c op).2 ≤ 1 := by
  cases op with
  | statusOp supR verR =>
    cases supR with
    | error e => simp [opOk, exceptOk] at hop
    | ok sup =>
      cases verR with
      | error e => simp [opOk, exceptOk] at hop
      | ok v =>
        exact ⟨⟨v, by simp [stepOp, get_status, hnone]⟩,
               by simp [stepOp, status_query_count, hnone]⟩
  | thumbAttempt verR fetchR isLast =>
    cases verR with
    | error e => simp [opOk, exceptOk] at hop
    | ok v =>
      cases fetchR with
      | ok d =>
        exact ⟨⟨v, by simp [stepOp, fetch_attempt, hnone]⟩,
               by simp [stepOp, fetch_attempt, hnone]⟩
      | error e =>
        exact ⟨⟨v, by simp [stepOp, fetch_attempt, hnone]⟩,
               by simp [stepOp, fetch_attempt, hnone]⟩

/-! ## Claim theorems -/

/-- C1: parsing the device's dotted version string takes its integer
major component — `"2.03"` has major 2 and selects the legacy single-item
shape (`get_thumbnail`), `"4.3.4.0"` has major 4 and selects the current
batch shape (`get_thumbnail_list`) — and for every version string whose
major component parses, the current shape is selected exactly when
`major >= 4`. -/
theorem version_gating_selects_shape (v : String) (m : Int)
    (h : major_of v = some m) :
    (thumbnail_shape v = some ThumbShape.batchList ↔ 4 ≤ m)
    ∧ major_of "2.03" = some 2
    ∧ thumbnail_shape "2.03" = some ThumbShape.singleItem
    ∧ major_of "4.3.4.0" = some 4
    ∧ thumbnail_shape "4.3.4.0" = some ThumbShape.batchList := by
  refine ⟨?_, by decide, by decide, by decide, by decide⟩
  unfold thumbnail_shape is_new_api
  rw [h]
  by_cases hm : 4 ≤ m
  · simp [hm]
  · simp [hm]

/-- Witness for C1 at the concrete version string `"4.3.4.0"`. -/
theorem version_gating_selects_shape_witness :
    (thumbnail_shape "4.3.4.0" = some ThumbShape.batchList ↔ 4 ≤ (4 : Int))
    ∧ major_of "2.03" = some 2
    ∧ thumbnail_shape "2.03" = some ThumbShape.singleItem
    ∧ major_of "4.3.4.0" = some 4
    ∧ thumbnail_shape "4.3.4.0" = some ThumbShape.batchList :=
  version_gating_selects_shape "4.3.4.0" 4 (by decide)

/-- C2: for every retry count and any TV behavior, `get_thumbnail`
performs at most `retries + 1` underlying fetch attempts; every attempt
after the first starts from a discarded connection handle (the handle is
reset before each retry); and when every attempt fails, exactly
`retries + 1` attempts are performed and the final attempt's exception is
re-raised to the caller. -/
theorem get_thumbnail_retry_bounded (fetch : Nat → Except String (List Nat))
    (errs : Nat → String) (retries : Nat) (tv : Option Unit)
    (hfail : ∀ i, i ≤ retries → fetch i = .error (errs i)) :
    (∀ g : Nat → Except String (List Nat), ∀ t : Option Unit,
        (get_thumbnail_retry g retries t).1.length ≤ retries + 1)
    ∧ (∀ x ∈ (get_thumbnail_retry fetch retries tv).1.drop 1, x = none)
    ∧ (get_thumbnail_retry fetch retries tv).2 = .error (errs retries)
    ∧ (get_thumbnail_retry fetch retries tv).1.length = retries + 1 := by
  have hall := fetchRetryAux_all_fail fetch errs retries 0 tv
    (fun j hj => by simpa using hfail j hj)
  refine ⟨fun g t => fetchRetryAux_length_le g retries 0 t,
          fetchRetryAux_drop_none fetch retries 0 tv, ?_, hall.2⟩
  simpa using hall.1

/-- Witness for C2: three attempts, all failing with `"boom"`, from a
live handle. -/
theorem get_thumbnail_retry_bounded_witness :
    (∀ g : Nat → Except String (List Nat), ∀ t : Option Unit,
        (get_thumbnail_retry g 2 t).1.length ≤ 2 + 1)
    ∧ (∀ x ∈ (get_thumbnail_retry (fun _ => .error "boom") 2 (some ())).1.drop 1,
        x = none)
    ∧ (get_thumbnail_retry (fun _ => .error "boom") 2 (some ())).2
        = .error ((fun _ : Nat => "boom") 2)
    ∧ (get_thumbnail_retry (fun _ => .error "boom") 2 (some ())).1.length = 2 + 1 :=
  get_thumbnail_retry_bounded (fun _ => .error "boom") (fun _ => "boom") 2
    (some ()) (fun _ _ => rfl)

/-- C5: if a first `get_thumbnail(id)` call succeeds — returning actual
bytes, which is exactly when the result is a cache hit or was written
through to the cache — then an immediately following second call issues
zero underlying TV fetches and returns byte-identical data, leaving the
cache unchanged, whatever the TV would have answered the second time. -/
theorem get_thumbnail_idempotent (cache : List (String × List Nat))
    (fetched fetched2 : Option (List Nat)) (content_id : String)
    (h : pyTruthy (get_thumbnail_cached cache fetched content_id).1 = true) :
    get_thumbnail_cached (get_thumbnail_cached cache fetched content_id).2.1
        fetched2 content_id
      = ((get_thumbnail_cached cache fetched content_id).1,
         (get_thumbnail_cached cache fetched content_id).2.1, 0) := by
  by_cases hc : pyTruthy (cacheGet cache content_id) = true
  · simp [get_thumbnail_cached, hc]
  · have h' : pyTruthy fetched = true := by
      simpa [get_thumbnail_cached, hc] using h
    obtain ⟨b, bs, hf⟩ := (pyTruthy_iff fetched).mp h'
    subst hf
    have e1 : get_thumbnail_cached cache (some (b :: bs)) content_id
        = (some (b :: bs), cacheSet cache content_id (b :: bs), 1) := by
      simp [get_thumbnail_cached, hc, pyTruthy_cons]
    rw [e1]
    simp [get_thumbnail_cached, cacheGet_cacheSet_self, pyTruthy_cons]

/-- Witness for C5: first call fetches `[7, 7]` on a cold cache, second
call is served from the cache with zero fetches. -/
theorem get_thumbnail_idempotent_witness :
    get_thumbnail_cached
        (get_thumbnail_cached [] (some [7, 7]) "MY_F0001").2.1
        none "MY_F0001"
      = ((get_thumbnail_cached [] (some [7, 7]) "MY_F0001").1,
         (get_thumbnail_cached [] (some [7, 7]) "MY_F0001").2.1, 0) :=
  get_thumbnail_idempotent [] (some [7, 7]) none "MY_F0001" (by decide)

/-- C3 counterexample: a concrete configure call whose reachability probe
fails. The settings record is indeed left untouched and an error is
raised, but the previously current connection is not left as it was: the
endpoint commits `TVClient.configure(ip)` before probing, so the current
ip has already moved to the new address and the shared thumbnail cache —
holding `"SAM-T1"` before the call — has already been flushed. This
refutes the claim that the previously current DeviceConnection, including
its ThumbnailCache contents, is left exactly as before. -/
theorem configure_failure_counterexample :
    (set_tv_settings
        ⟨some ⟨"192.168.0.105", some (), some "4.3.4.0"⟩,
         some "192.168.0.105",
         ⟨some "192.168.0.105", some "Old TV", false⟩,
         [("SAM-T1", [1, 2, 3])]⟩
        (.error "connection refused") (.ok "4.0")
        "10.0.0.5" "Living Room" false).1.isSome = true
    ∧ (set_tv_settings
        ⟨some ⟨"192.168.0.105", some (), some "4.3.4.0"⟩,
         some "192.168.0.105",
         ⟨some "192.168.0.105", some "Old TV", false⟩,
         [("SAM-T1", [1, 2, 3])]⟩
        (.error "connection refused") (.ok "4.0")
        "10.0.0.5" "Living Room" false).2.settings
        = ⟨some "192.168.0.105", some "Old TV", false⟩
    ∧ cacheGet [("SAM-T1", [1, 2, 3])] "SAM-T1" = some [1, 2, 3]
    ∧ cacheGet (set_tv_settings
        ⟨some ⟨"192.168.0.105", some (), some "4.3.4.0"⟩,
         some "192.168.0.105",
         ⟨some "192.168.0.105", some "Old TV", false⟩,
         [("SAM-T1", [1, 2, 3])]⟩
        (.error "connection refused") (.ok "4.0")
        "10.0.0.5" "Living Room" false).2.cache "SAM-T1" = none
    ∧ (set_tv_settings
        ⟨some ⟨"192.168.0.105", some (), some "4.3.4.0"⟩,
         some "192.168.0.105",
         ⟨some "192.168.0.105", some "Old TV", false⟩,
         [("SAM-T1", [1, 2, 3])]⟩
        (.error "connection refused") (.ok "4.0")
        "10.0.0.5" "Living Room" false).2.currentIp
        ≠ some "192.168.0.105" := by
  decide

/-- C3 amended: for every address whose reachability probe fails, the
save raises a 400-class ConfigurationRejected error and leaves the
persisted settings record exactly as before; the in-memory current
connection, however, has already been swapped to a fresh client for the
new address before the probe, and when an instance existed for a
different address the shared thumbnail cache has already been flushed
(it is left untouched only when no instance existed or the address is
unchanged). -/
theorem configure_failure_keeps_settings_only (s : SysState) (e : String)
    (verR : Except String String) (ip name : String) (manual : Bool) :
    (set_tv_settings s (.error e) verR ip name manual).1
        = some ("Could not connect to TV at " ++ ip)
    ∧ (set_tv_settings s (.error e) verR ip name manual).2.settings
        = s.settings
    ∧ (set_tv_settings s (.error e) verR ip name manual).2.currentIp = some ip
    ∧ (set_tv_settings s (.error e) verR ip name manual).2.inst
        = some ⟨ip, none, none⟩
    ∧ (s.inst.isSome = true → s.currentIp ≠ some ip →
        (set_tv_settings s (.error e) verR ip name manual).2.cache = [])
    ∧ (¬(s.inst.isSome = true ∧ s.currentIp ≠ some ip) →
        (set_tv_settings s (.error e) verR ip name manual).2.cache
          = s.cache) := by
  by_cases hcond : s.inst.isSome = true ∧ s.currentIp ≠ some ip
  · simp [set_tv_settings, configure, get_status, hcond]
  · refine ⟨?_, ?_, ?_, ?_, fun ha hb => absurd ⟨ha, hb⟩ hcond, ?_⟩ <;>
      simp [set_tv_settings, configure, get_status, hcond]

/-- Witness for C3 amended: probing `10.0.0.5` fails from an unconfigured
initial state; the settings record survives and the cache, empty before,
is untouched. -/
theorem configure_failure_keeps_settings_only_witness :
    (set_tv_settings ⟨none, none, ⟨none, none, false⟩, []⟩
        (.error "refused") (.ok "4.0") "10.0.0.5" "Living Room" false).1
        = some ("Could not connect to TV at " ++ "10.0.0.5")
    ∧ (set_tv_settings ⟨none, none, ⟨none, none, false⟩, []⟩
        (.error "refused") (.ok "4.0") "10.0.0.5" "Living Room" false).2.settings
        = (⟨none, none, ⟨none, none, false⟩, []⟩ : SysState).settings
    ∧ (set_tv_settings ⟨none, none, ⟨none, none, false⟩, []⟩
        (.error "refused") (.ok "4.0") "10.0.0.5" "Living Room" false).2.currentIp
        = some "10.0.0.5"
    ∧ (set_tv_settings ⟨none, none, ⟨none, none, false⟩, []⟩
        (.error "refused") (.ok "4.0") "10.0.0.5" "Living Room" false).2.inst
        = some ⟨"10.0.0.5", none, none⟩
    ∧ ((⟨none, none, ⟨none, none, false⟩, []⟩ : SysState).inst.isSome = true →
        (⟨none, none, ⟨none, none, false⟩, []⟩ : SysState).currentIp ≠ some "10.0.0.5" →
        (set_tv_settings ⟨none, none, ⟨none, none, false⟩, []⟩
          (.error "refused") (.ok "4.0") "10.0.0.5" "Living Room" false).2.cache = [])
    ∧ (¬((⟨none, none, ⟨none, none, false⟩, []⟩ : SysState).inst.isSome = true ∧
          (⟨none, none, ⟨none, none, false⟩, []⟩ : SysState).currentIp ≠ some "10.0.0.5") →
        (set_tv_settings ⟨none, none, ⟨none, none, false⟩, []⟩
          (.error "refused") (.ok "4.0") "10.0.0.5" "Living Room" false).2.cache
          = (⟨none, none, ⟨none, none, false⟩, []⟩ : SysState).cache) :=
  configure_failure_keeps_settings_only ⟨none, none, ⟨none, none, false⟩, []⟩
    "refused" (.ok "4.0") "10.0.0.5" "Living Room" false

/-- C4: after a successful `configure(A)`, thumbnails cached under A, and
a successful `configure(B)` with `A ≠ B`, every key cached under A misses
in the thumbnail cache — the device switch flushed it in full. -/
theorem cache_flushed_on_device_switch (s : SysState) (A B name : String)
    (manual : Bool) (sup : Bool) (ver : String) (k : String) (bs : List Nat)
    (hcur : s.currentIp = some A) (hinst : s.inst.isSome = true)
    (hne : A ≠ B) (_hk : cacheGet s.cache k = some bs) :
    (set_tv_settings s (.ok sup) (.ok ver) B name manual).1 = none
    ∧ cacheGet (set_tv_settings s (.ok sup) (.ok ver) B name manual).2.cache k
        = none := by
  have hcond : s.inst.isSome = true ∧ s.currentIp ≠ some B := by
    refine ⟨hinst, ?_⟩
    rw [hcur]
    intro hAB
    exact hne (Option.some.inj hAB)
  refine ⟨?_, ?_⟩ <;>
    simp [set_tv_settings, configure, get_status, hcond, cacheGet]

/-- Witness for C4: switching from `192.168.0.105` (with `"SAM-T1"`
cached) to `10.0.0.5` with a successful probe leaves no hit for
`"SAM-T1"`. -/
theorem cache_flushed_on_device_switch_witness :
    (0 : Nat) = 0
    ∧ ((set_tv_settings
        ⟨some ⟨"192.168.0.105", some (), some "4.3.4.0"⟩,
         some "192.168.0.105",
         ⟨some "192.168.0.105", some "Old TV", false⟩,
         [("SAM-T1", [1, 2, 3])]⟩
        (.ok true) (.ok "4.0") "10.0.0.5" "New TV" false).1 = none
    ∧ cacheGet (set_tv_settings
        ⟨some ⟨"192.168.0.105", some (), some "4.3.4.0"⟩,
         some "192.168.0.105",
         ⟨some "192.168.0.105", some "Old TV", false⟩,
         [("SAM-T1", [1, 2, 3])]⟩
        (.ok true) (.ok "4.0") "10.0.0.5" "New TV" false).2.cache "SAM-T1"
        = none) :=
  ⟨rfl, cache_flushed_on_device_switch
    ⟨some ⟨"192.168.0.105", some (), some "4.3.4.0"⟩,
     some "192.168.0.105",
     ⟨some "192.168.0.105", some "Old TV", false⟩,
     [("SAM-T1", [1, 2, 3])]⟩
    "192.168.0.105" "10.0.0.5" "New TV" false true "4.0" "SAM-T1" [1, 2, 3]
    rfl rfl (by decide) (by decide)⟩

/-- C6 counterexample: on one instance, a successful status call detects
version `"4.3.4.0"`; a following failed status call clears the memoized
version even though detection had succeeded — refuting "the memoized
version value is cleared only if detection had not yet succeeded" — and a
third, successful status call issues the underlying version query a
second time and adopts a different value, so the already-detected version
is not used unchanged by all later calls. -/
theorem version_memoization_counterexample :
    (stepOp ⟨"192.168.0.105", none, none⟩
        (.statusOp (.ok true) (.ok "4.3.4.0"))).1.apiVersion = some "4.3.4.0"
    ∧ (stepOp (stepOp ⟨"192.168.0.105", none, none⟩
          (.statusOp (.ok true) (.ok "4.3.4.0"))).1
        (.statusOp (.error "TV is off") (.ok "4.3.4.0"))).1.apiVersion = none
    ∧ (runOps ⟨"192.168.0.105", none, none⟩
        [.statusOp (.ok true) (.ok "4.3.4.0"),
         .statusOp (.error "TV is off") (.ok "4.3.4.0"),
         .statusOp (.ok true) (.ok "2.03")]).2 = 2
    ∧ (runOps ⟨"192.168.0.105", none, none⟩
        [.statusOp (.ok true) (.ok "4.3.4.0"),
         .statusOp (.error "TV is off") (.ok "4.3.4.0"),
         .statusOp (.ok true) (.ok "2.03")]).1.apiVersion = some "2.03" := by
  decide

/-- C6 amended: over any operation sequence on one instance in which
every underlying device interaction succeeds, the version query is issued
at most once; a failed thumbnail fetch attempt (before the last retry)
discards only the handle and leaves a memoized version unchanged; a
failed status probe discards the handle and clears the memoized version
unconditionally — even one already detected; and a memoized version is
used unchanged, with no further version queries, by all later operations
up to the next failing status probe. -/
theorem version_memoization_amended (st0 : TVClientSt) (ops : List TVOp)
    (hok : ops.all opOk = true) :
    (runOps st0 ops).2 ≤ 1
    ∧ (∀ c : TVClientSt, ∀ v e : String, ∀ verR : Except String String,
        c.apiVersion = some v →
        stepOp c (.thumbAttempt verR (.error e) false) = (⟨c.ip, none, some v⟩, 0))
    ∧ (∀ c : TVClientSt, ∀ e : String, ∀ verR : Except String String,
        stepOp c (.statusOp (.error e) verR) = (⟨c.ip, none, none⟩, 0))
    ∧ (∀ c : TVClientSt, ∀ v : String, ∀ later : List TVOp,
        c.apiVersion = some v → (∀ op ∈ later, statusFail op = false) →
        (runOps c later).1.apiVersion = some v ∧ (runOps c later).2 = 0) := by
  have hall : ∀ op ∈ ops, opOk op = true := by
    intro op hop
    exact List.all_eq_true.mp hok op hop
  refine ⟨?_, ?_, ?_, fun c v later hv hl => runOps_detected v later c hv hl⟩
  · cases ops with
    | nil => simp [runOps]
    | cons op ops =>
      have hsf : ∀ o ∈ ops, statusFail o = false := fun o ho =>
        opOk_not_statusFail o (hall o (by simp [ho]))
      cases hv : st0.apiVersion with
      | some v =>
        have := runOps_detected v (op :: ops) st0 hv (fun o ho =>
          opOk_not_statusFail o (hall o ho))
        rw [this.2]
        exact Nat.zero_le 1
      | none =>
        have h1 := stepOp_ok_detects st0 op (hall op (by simp)) hv
        obtain ⟨⟨v, hv'⟩, hq⟩ := h1
        have h2 := runOps_detected v ops (stepOp st0 op).1 hv' hsf
        rw [runOps_cons, h2.2]
        simpa using hq
  · intro c v e verR hv
    simp [stepOp, fetch_attempt, hv]
  · intro c e verR
    simp [stepOp, get_status, status_query_count]

/-- Witness for C6 amended: a single successful status call on a fresh
instance. -/
theorem version_memoization_amended_witness :
    (runOps ⟨"192.168.0.105", none, none⟩
        [.statusOp (.ok true) (.ok "4.3.4.0")]).2 ≤ 1
    ∧ (∀ c : TVClientSt, ∀ v e : String, ∀ verR : Except String String,
        c.apiVersion = some v →
        stepOp c (.thumbAttempt verR (.error e) false) = (⟨c.ip, none, some v⟩, 0))
    ∧ (∀ c : TVClientSt, ∀ e : String, ∀ verR : Except String String,
        stepOp c (.statusOp (.error e) verR) = (⟨c.ip, none, none⟩, 0))
    ∧ (∀ c : TVClientSt, ∀ v : String, ∀ later : List TVOp,
        c.apiVersion = some v → (∀ op ∈ later, statusFail op = false) →
        (runOps c later).1.apiVersion = some v ∧ (runOps c later).2 = 0) :=
  version_memoization_amended ⟨"192.168.0.105", none, none⟩
    [.statusOp (.ok true) (.ok "4.3.4.0")] (by decide)

/-- C7: `get_status` is total — it returns a record rather than raising —
and on any failing probe (the `supported()` call failing, or the version
query failing when no version was memoized) it returns a record whose
connected flag is false carrying the error text, discards the handle, and
leaves no version state (in particular any undetected version state is
discarded). -/
theorem get_status_failure_returns_flag (c : TVClientSt)
    (supR : Except String Bool) (verR : Except String String) (e : String)
    (hfail : supR = .error e
      ∨ (exceptOk supR = true ∧ c.apiVersion = none ∧ verR = .error e)) :
    (get_status c supR verR).1.connected = false
    ∧ (get_status c supR verR).1.error = some e
    ∧ (get_status c supR verR).2.tv = none
    ∧ (get_status c supR verR).2.apiVersion = none := by
  rcases hfail with h | ⟨hok, hver, herr⟩
  · subst h
    simp [get_status]
  · cases supR with
    | error e' => simp [exceptOk] at hok
    | ok sup =>
      subst herr
      simp [get_status, hver]

/-- Witness for C7: probing an unreachable device from a connected,
version-detected state. -/
theorem get_status_failure_returns_flag_witness :
    (get_status ⟨"192.168.0.105", some (), some "4.3.4.0"⟩
        (.error "timed out") (.ok "4.3.4.0")).1.connected = false
    ∧ (get_status ⟨"192.168.0.105", some (), some "4.3.4.0"⟩
        (.error "timed out") (.ok "4.3.4.0")).1.error = some "timed out"
    ∧ (get_status ⟨"192.168.0.105", some (), some "4.3.4.0"⟩
        (.error "timed out") (.ok "4.3.4.0")).2.tv = none
    ∧ (get_status ⟨"192.168.0.105", some (), some "4.3.4.0"⟩
        (.error "timed out") (.ok "4.3.4.0")).2.apiVersion = none :=
  get_status_failure_returns_flag ⟨"192.168.0.105", some (), some "4.3.4.0"⟩
    (.error "timed out") (.ok "4.3.4.0") "timed out" (Or.inl rfl)

/-- C8: a discovery scan with zero responders inside the timeout window
returns the empty device list as a normal (non-error) outcome — the read
timeout just ends the receive loop — and socket setup failure is the only
fatal failure: with setup succeeded the scan returns `ok` whatever the
responses, and with setup failed it propagates the error. -/
theorem scan_zero_responders_is_ok :
    discover_tvs (.ok ()) [] = .ok []
    ∧ (∀ resps : List RespEv, ∃ tvs, discover_tvs (.ok ()) resps = .ok tvs)
    ∧ (∀ e : String, ∀ resps : List RespEv,
        discover_tvs (Except.error e) resps = .error e) :=
  ⟨rfl, fun resps => ⟨resps.foldl scanStep [], rfl⟩, fun _ _ => rfl⟩

/-- C9: for every source image with positive dimensions and offsets in
`[0, 1]`, `_reframe_image` computes a crop box lying entirely within the
source bounds, and the cropped image measures `(int(h*16/9), h)` when
`w/h > 16/9` and `(w, int(w*9/16))` otherwise — a 16:9 fill exact up to
integer truncation, with no matte added. -/
theorem reframe_box_in_bounds (w h : ℕ) (hw : 0 < w) (hh : 0 < h)
    (ox oy : ℚ) (hox0 : 0 ≤ ox) (hox1 : ox ≤ 1) (hoy0 : 0 ≤ oy) (hoy1 : oy ≤ 1) :
    0 ≤ (reframe_box w h ox oy).left
    ∧ 0 ≤ (reframe_box w h ox oy).top
    ∧ (reframe_box w h ox oy).left ≤ (reframe_box w h ox oy).right
    ∧ (reframe_box w h ox oy).top ≤ (reframe_box w h ox oy).bottom
    ∧ (reframe_box w h ox oy).right ≤ (w : ℤ)
    ∧ (reframe_box w h ox oy).bottom ≤ (h : ℤ)
    ∧ ((w : ℚ) / (h : ℚ) > 16 / 9 →
        (reframe_box w h ox oy).right - (reframe_box w h ox oy).left
            = ⌊(h : ℚ) * (16 / 9)⌋
        ∧ (reframe_box w h ox oy).bottom - (reframe_box w h ox oy).top = (h : ℤ))
    ∧ (¬((w : ℚ) / (h : ℚ) > 16 / 9) →
        (reframe_box w h ox oy).right - (reframe_box w h ox oy).left = (w : ℤ)
        ∧ (reframe_box w h ox oy).bottom - (reframe_box w h ox oy).top
            = ⌊(w : ℚ) * (9 / 16)⌋) := by
  have hhq : (0 : ℚ) < (h : ℚ) := by exact_mod_cast hh
  unfold reframe_box TARGET_RATIO
  by_cases hr : (w : ℚ) / (h : ℚ) > 16 / 9
  · have hwide : (h : ℚ) * (16 / 9) < (w : ℚ) := by
      have := (lt_div_iff₀ hhq).mp hr
      linarith
    have f1 : (0 : ℤ) ≤ ⌊(h : ℚ) * (16 / 9)⌋ := by
      apply Int.floor_nonneg.mpr
      positivity
    have f2 : ⌊(h : ℚ) * (16 / 9)⌋ ≤ (w : ℤ) := by
      have := Int.floor_le_floor (le_of_lt hwide)
      simpa using this
    have f3 : (0 : ℤ) ≤ (w : ℤ) - ⌊(h : ℚ) * (16 / 9)⌋ := by omega
    have f4 : (0 : ℤ) ≤ ⌊((((w : ℤ) - ⌊(h : ℚ) * (16 / 9)⌋ : ℤ)) : ℚ) * ox⌋ := by
      apply Int.floor_nonneg.mpr
      apply mul_nonneg _ hox0
      exact_mod_cast f3
    have f5 : ⌊((((w : ℤ) - ⌊(h : ℚ) * (16 / 9)⌋ : ℤ)) : ℚ) * ox⌋
        ≤ (w : ℤ) - ⌊(h : ℚ) * (16 / 9)⌋ := by
      have hmul : ((((w : ℤ) - ⌊(h : ℚ) * (16 / 9)⌋ : ℤ)) : ℚ) * ox
          ≤ ((((w : ℤ) - ⌊(h : ℚ) * (16 / 9)⌋ : ℤ)) : ℚ) := by
        apply mul_le_of_le_one_right _ hox1
        exact_mod_cast f3
      have := Int.floor_le_floor hmul
      simpa using this
    simp only [if_pos hr]
    refine ⟨f4, le_refl 0, ?_, ?_, ?_, le_refl _, fun _ => ⟨by ring, by ring⟩,
        fun hc => absurd hr hc⟩
    · omega
    · exact_mod_cast le_of_lt hh
    · omega
  · have hnarrow : (w : ℚ) ≤ (h : ℚ) * (16 / 9) := by
      push_neg at hr
      have := (div_le_iff₀ hhq).mp hr
      linarith
    have hdiv : (w : ℚ) / (16 / 9) = (w : ℚ) * (9 / 16) := by
      rw [div_eq_mul_inv]
      norm_num
    have f1 : (0 : ℤ) ≤ ⌊(w : ℚ) / (16 / 9)⌋ := by
      apply Int.floor_nonneg.mpr
      positivity
    have f2 : ⌊(w : ℚ) / (16 / 9)⌋ ≤ (h : ℤ) := by
      have hle : (w : ℚ) / (16 / 9) ≤ (h : ℚ) := by
        rw [hdiv]
        linarith
      have := Int.floor_le_floor hle
      simpa using this
    have f3 : (0 : ℤ) ≤ (h : ℤ) - ⌊(w : ℚ) / (16 / 9)⌋ := by omega
    have f4 : (0 : ℤ) ≤ ⌊((((h : ℤ) - ⌊(w : ℚ) / (16 / 9)⌋ : ℤ)) : ℚ) * oy⌋ := by
      apply Int.floor_nonneg.mpr
      apply mul_nonneg _ hoy0
      exact_mod_cast f3
    have f5 : ⌊((((h : ℤ) - ⌊(w : ℚ) / (16 / 9)⌋ : ℤ)) : ℚ) * oy⌋
        ≤ (h : ℤ) - ⌊(w : ℚ) / (16 / 9)⌋ := by
      have hmul : ((((h : ℤ) - ⌊(w : ℚ) / (16 / 9)⌋ : ℤ)) : ℚ) * oy
          ≤ ((((h : ℤ) - ⌊(w : ℚ) / (16 / 9)⌋ : ℤ)) : ℚ) := by
        apply mul_le_of_le_one_right _ hoy1
        exact_mod_cast f3
      have := Int.floor_le_floor hmul
      simpa using this
    simp only [if_neg hr]
    refine ⟨le_refl 0, f4, ?_, ?_, le_refl _, ?_, fun hc => absurd hc hr, ?_⟩
    · exact_mod_cast le_of_lt hw
    · omega
    · omega
    · intro _
      constructor
      · ring
      · rw [hdiv]
        ring

/-- Witness for C9: a 3000 by 1000 image re-framed at centered offsets. -/
theorem reframe_box_in_bounds_witness :
    0 ≤ (reframe_box 3000 1000 (1/2) (1/2)).left
    ∧ 0 ≤ (reframe_box 3000 1000 (1/2) (1/2)).top
    ∧ (reframe_box 3000 1000 (1/2) (1/2)).left
        ≤ (reframe_box 3000 1000 (1/2) (1/2)).right
    ∧ (reframe_box 3000 1000 (1/2) (1/2)).top
        ≤ (reframe_box 3000 1000 (1/2) (1/2)).bottom
    ∧ (reframe_box 3000 1000 (1/2) (1/2)).right ≤ ((3000 : ℕ) : ℤ)
    ∧ (reframe_box 3000 1000 (1/2) (1/2)).bottom ≤ ((1000 : ℕ) : ℤ)
    ∧ (((3000 : ℕ) : ℚ) / ((1000 : ℕ) : ℚ) > 16 / 9 →
        (reframe_box 3000 1000 (1/2) (1/2)).right
            - (reframe_box 3000 1000 (1/2) (1/2)).left
            = ⌊((1000 : ℕ) : ℚ) * (16 / 9)⌋
        ∧ (reframe_box 3000 1000 (1/2) (1/2)).bottom
            - (reframe_box 3000 1000 (1/2) (1/2)).top = ((1000 : ℕ) : ℤ))
    ∧ (¬(((3000 : ℕ) : ℚ) / ((1000 : ℕ) : ℚ) > 16 / 9) →
        (reframe_box 3000 1000 (1/2) (1/2)).right
            - (reframe_box 3000 1000 (1/2) (1/2)).left = ((3000 : ℕ) : ℤ)
        ∧ (reframe_box 3000 1000 (1/2) (1/2)).bottom
            - (reframe_box 3000 1000 (1/2) (1/2)).top
            = ⌊((3000 : ℕ) : ℚ) * (9 / 16)⌋) :=
  reframe_box_in_bounds 3000 1000 (by norm_num) (by norm_num) (1/2) (1/2)
    (by norm_num) (by norm_num) (by norm_num) (by norm_num)

/-- C10: the local-image thumbnail endpoint clamps the requested size
into `[50, 1200]` and derives the cache key from the image path and the
clamped size, so two requests whose sizes clamp equal use the same cache
key and return the same bytes; concretely `0` and `50` clamp to `50`, and
`5000` and `1200` clamp to `1200`. -/
theorem thumbnail_size_clamping (cache : String → Option (List Nat))
    (gen : String → Int → List Nat) (image_path : String) (s1 s2 : Int)
    (h : clamp_size s1 = clamp_size s2) :
    thumb_cache_key image_path (clamp_size s1)
        = thumb_cache_key image_path (clamp_size s2)
    ∧ get_thumbnail_endpoint cache gen image_path s1
        = get_thumbnail_endpoint cache gen image_path s2
    ∧ 50 ≤ clamp_size s1 ∧ clamp_size s1 ≤ 1200
    ∧ clamp_size 0 = 50 ∧ clamp_size 50 = 50
    ∧ clamp_size 5000 = 1200 ∧ clamp_size 1200 = 1200 := by
  refine ⟨by rw [h], ?_, ?_, ?_, by decide, by decide, by decide, by decide⟩
  · unfold get_thumbnail_endpoint
    rw [h]
  · exact le_min (le_max_right s1 50) (by norm_num)
  · exact min_le_right _ _

/-- Witness for C10 at sizes 0 and 50 with a concrete empty cache. -/
theorem thumbnail_size_clamping_witness :
    thumb_cache_key "a.jpg" (clamp_size 0) = thumb_cache_key "a.jpg" (clamp_size 50)
    ∧ get_thumbnail_endpoint (fun _ => none) (fun _ _ => [9]) "a.jpg" 0
        = get_thumbnail_endpoint (fun _ => none) (fun _ _ => [9]) "a.jpg" 50
    ∧ 50 ≤ clamp_size 0 ∧ clamp_size 0 ≤ 1200
    ∧ clamp_size 0 = 50 ∧ clamp_size 50 = 50
    ∧ clamp_size 5000 = 1200 ∧ clamp_size 1200 = 1200 :=
  thumbnail_size_clamping (fun _ => none) (fun _ _ => [9]) "a.jpg" 0 50 (by decide)

end FrameArt
